import Mathlib

/-!
Shallow embedding of `drivers/crypto/jz4780-rng.c`.

The driver talks to the hardware through `regmap_read` / `regmap_write`.
Both are external: their results are supplied by a `Transport`, the stream
of replies the register map gives to the successive calls.  Every register
access and every `udelay` is appended to a trace, so that the order and the
number of accesses can be stated.

Memory is a map from addresses to bytes; `dst` is an address in it.

The device object is modelled at two levels.  At the resolved level
(`jz4780_rng_ctx`, `Globals`) a pointer to a `struct jz4780_rng` is an
`Option` of the object it refers to, `none` when the pointer cannot be
dereferenced; the driver never writes to the struct once it is installed in
the singleton, so the value stands for the object as long as the object is
allocated.  At the pointer level (`Kernel`) the singleton and the context
hold addresses into the `devm_kzalloc`ed memory, which the driver core
releases after unbinding; `Kernel.deref` resolves an address, and the
pointer-level functions carry the names of the source under `Kernel`.
-/

namespace Jz4780

/-! ## Constants -/

/-- Offset of the control register: `#define REG_RNG_CTRL 0xD8`. -/
def REG_RNG_CTRL : Nat := 0xD8

/-- Offset of the data register: `#define REG_RNG_DATA 0xDC`. -/
def REG_RNG_DATA : Nat := 0xDC

/-- Errno `ENOMEM`, from `errno-base.h`. -/
def ENOMEM : Int := 12

/-- Largest errno an error pointer can carry: `MAX_ERRNO` of `err.h`. -/
def MAX_ERRNO : Int := 4095

/-- Codes `e` for which `IS_ERR(ERR_PTR(e))` holds: `-MAX_ERRNO ≤ e ≤ -1`. -/
abbrev Errno := { e : Int // -MAX_ERRNO ≤ e ∧ e ≤ -1 }

/-! ## Data model -/

/-- Mirror of `struct jz4780_rng`: device associated memory (`dev` and `regmap` are
opaque handles, `0` standing for `NULL`). -/
structure jz4780_rng where
  dev : Nat
  regmap : Nat
deriving DecidableEq, Repr

/-- Mirror of `struct jz4780_rng_ctx` with its pointer resolved: `rng` is the
device `ctx->rng` points to, `none` when `ctx->rng` is `NULL` or points to
memory that has been released (see `Kernel.deref`). -/
structure jz4780_rng_ctx where
  rng : Option jz4780_rng
deriving DecidableEq, Repr

/-- File-scope variables of the driver, `static struct jz4780_rng *jz4780_rng`,
with the pointer resolved in the same way. -/
structure Globals where
  jz4780_rng : Option jz4780_rng
deriving DecidableEq, Repr

/-- Pointer-level view of the driver's data: the file-scope pointer
`jz4780_rng` as an address (`0` is `NULL`) and the `devm_kzalloc`ed device
objects by address; `objs a = none` when nothing is allocated at `a`, which
is the case again once the driver core has released the allocation. -/
structure Kernel where
  jz4780_rng : Nat
  objs : Nat → Option Jz4780.jz4780_rng

/-- Mirror of `struct jz4780_rng_ctx` at pointer level: `rng` is the address
stored in the context (`0` is `NULL`). -/
structure Kernel.jz4780_rng_ctx where
  rng : Nat
deriving DecidableEq, Repr

/-- What one `regmap_read` call gives back: its return code, and the value
it stores through the `val` pointer. -/
structure ReadReply where
  ret : Int
  val : Nat
deriving DecidableEq, Repr

/-- The register transport seen from the driver: the reply to the `k`-th
`regmap_read` and the return code of the `k`-th `regmap_write`. -/
structure Transport where
  reads : Nat → ReadReply
  writes : Nat → Int

/-- One observable action of the driver. -/
inductive Event where
  | regmap_read (regmap offset : Nat)
  | regmap_write (regmap offset val : Nat)
  | udelay (usecs : Nat)
deriving DecidableEq, Repr

/-- Machine state threaded through the driver code: memory (address to
byte), the trace of actions so far and how many `regmap_read` /
`regmap_write` calls were made. -/
structure State where
  mem : Nat → Nat
  trace : List Event
  nreads : Nat
  nwrites : Nat

/-- State before any driver action. -/
def State.init (mem : Nat → Nat) : State :=
  { mem := mem, trace := [], nreads := 0, nwrites := 0 }

/-! ## C integer conversions -/

/-- Conversion of a `u32` to `int` (two's complement, as the kernel is built). -/
def u32_to_int (v : Nat) : Int :=
  if v % 2 ^ 32 < 2 ^ 31 then ((v % 2 ^ 32 : Nat) : Int)
  else ((v % 2 ^ 32 : Nat) : Int) - 2 ^ 32

/-- Conversion of an `int` to `u32`: reduction modulo `2^32`. -/
def int_to_u32 (i : Int) : Nat :=
  (i % 2 ^ 32).toNat

/-- Object representation of a `u32` in memory, lowest address first;
`bigEndian` is the byte order of the platform the kernel is built for. -/
def u32_bytes (bigEndian : Bool) (w : Nat) : List Nat :=
  if bigEndian then
    [w / 2 ^ 24 % 256, w / 2 ^ 16 % 256, w / 2 ^ 8 % 256, w % 256]
  else
    [w % 256, w / 2 ^ 8 % 256, w / 2 ^ 16 % 256, w / 2 ^ 24 % 256]

/-- Call `memcpy(dst, src, n)` where `src` is given by its bytes. -/
def memcpy (mem : Nat → Nat) (dst : Nat) (src : List Nat) (n : Nat) : Nat → Nat :=
  fun a => if dst ≤ a ∧ a < dst + n then src.getD (a - dst) 0 else mem a

/-! ## External calls -/

/-- Call `regmap_read(map, offset, &val)`: logs the access and hands out the
transport's next read reply. -/
def regmap_read (env : Transport) (s : State) (regmap offset : Nat) :
    ReadReply × State :=
  (env.reads s.nreads,
   { s with trace := s.trace ++ [Event.regmap_read regmap offset],
            nreads := s.nreads + 1 })

/-- Call `regmap_write(map, offset, val)`: logs the access and hands out the
transport's next write return code. -/
def regmap_write (env : Transport) (s : State) (regmap offset val : Nat) :
    Int × State :=
  (env.writes s.nwrites,
   { s with trace := s.trace ++ [Event.regmap_write regmap offset val],
            nwrites := s.nwrites + 1 })

/-- Call `udelay(usecs)`: a busy wait, visible only in the trace. -/
def udelay (s : State) (usecs : Nat) : State :=
  { s with trace := s.trace ++ [Event.udelay usecs] }

/-! ## The driver -/

/-- Function `jz4780_rng_readl`: `val` starts at 0; when `regmap_read` returns 0 the
value read is returned (converted to `int`), otherwise the return code. -/
def jz4780_rng_readl (env : Transport) (s : State) (rng : jz4780_rng)
    (offset : Nat) : Int × State :=
  let r := regmap_read env s rng.regmap offset
  if r.1.ret = 0 then (u32_to_int r.1.val, r.2) else (r.1.ret, r.2)

/-- Function `jz4780_rng_writel`: returns what `regmap_write` returns. -/
def jz4780_rng_writel (env : Transport) (s : State) (rng : jz4780_rng)
    (val offset : Nat) : Int × State :=
  regmap_write env s rng.regmap offset val

/-- Body of `while (dlen >= 4) { ... }` in `jz4780_rng_generate`: one read
of `DATA`, a 4-byte `memcpy` to `dst`, then `udelay(20)`. -/
def generate_word (env : Transport) (bigEndian : Bool) (rng : jz4780_rng)
    (dst : Nat) (s : State) : State :=
  let r := jz4780_rng_readl env s rng REG_RNG_DATA
  let data := int_to_u32 r.1
  let s1 := { r.2 with mem := memcpy r.2.mem dst (u32_bytes bigEndian data) 4 }
  udelay s1 20

/-- The loop `while (dlen >= 4) { ...; dlen -= 4; dst += 4; udelay(20); }`:
returns the remaining `dlen`, the advanced `dst` and the state. -/
def generate_loop (env : Transport) (bigEndian : Bool) (rng : jz4780_rng) :
    Nat → Nat → State → Nat × Nat × State
  | dlen + 4, dst, s =>
      generate_loop env bigEndian rng dlen (dst + 4)
        (generate_word env bigEndian rng dst s)
  | dlen, dst, s => (dlen, dst, s)

/-- The tail `if (dlen > 0) { data = readl(DATA); memcpy(dst, &data, dlen); }`. -/
def generate_tail (env : Transport) (bigEndian : Bool) (rng : jz4780_rng)
    (dlen dst : Nat) (s : State) : State :=
  if dlen > 0 then
    let r := jz4780_rng_readl env s rng REG_RNG_DATA
    let data := int_to_u32 r.1
    { r.2 with mem := memcpy r.2.mem dst (u32_bytes bigEndian data) dlen }
  else s

/-- Function `jz4780_rng_generate(tfm, src, slen, dst, dlen)`.  `src` and `slen` are
not used by the function and are left out; `ctx` is `crypto_rng_ctx(tfm)`.
The results of both `jz4780_rng_writel` calls are discarded, as in the
source.  `none` is the fault of dereferencing a `NULL` `ctx->rng`. -/
def jz4780_rng_generate (env : Transport) (bigEndian : Bool)
    (ctx : jz4780_rng_ctx) (dst dlen : Nat) (s : State) : Option (Int × State) :=
  match ctx.rng with
  | none => none
  | some rng =>
    let s1 := (jz4780_rng_writel env s rng 1 REG_RNG_CTRL).2
    let l := generate_loop env bigEndian rng dlen dst s1
    let s2 := generate_tail env bigEndian rng l.1 l.2.1 l.2.2
    let s3 := (jz4780_rng_writel env s2 rng 0 REG_RNG_CTRL).2
    some (0, s3)

/-- Function `jz4780_rng_kcapi_init`: copies the singleton pointer into the context
and returns 0.  `ctx` is `crypto_tfm_ctx(tfm)`. -/
def jz4780_rng_kcapi_init (g : Globals) (_ctx : jz4780_rng_ctx) :
    Int × jz4780_rng_ctx × Globals :=
  (0, { rng := g.jz4780_rng }, g)

/-- Function `jz4780_rng_probe`.  The outcomes of the external calls are inputs:
whether `devm_kzalloc` returned memory, what `syscon_node_to_regmap` returned
(`.ok h` for a pointer on which `IS_ERR` is false, `h` being the regmap
handle; `.error e` for `ERR_PTR(e)`, on which `IS_ERR` is true and `PTR_ERR`
gives `e`), and the return code of `crypto_register_rng`.  The result of
`platform_get_resource` is never used and `dev_err` only logs; neither is
modelled.  The zeroed allocation leaves `dev` at `NULL`. -/
def jz4780_rng_probe (kzalloc_ok : Bool) (syscon : Except Errno Nat)
    (register_ret : Int) (g : Globals) : Int × Globals :=
  if !kzalloc_ok then (-ENOMEM, g)
  else
    match syscon with
    | .error e => (e.1, g)
    | .ok regmap =>
      let rng : jz4780_rng := { dev := 0, regmap := regmap }
      let g1 : Globals := { g with jz4780_rng := some rng }
      if register_ret ≠ 0 then (register_ret, { g1 with jz4780_rng := none })
      else (register_ret, g1)

/-- Function `jz4780_rng_remove`: unregisters the algorithm (external, not
modelled), clears the singleton, returns 0. -/
def jz4780_rng_remove (g : Globals) : Int × Globals :=
  (0, { g with jz4780_rng := none })

/-! ## The driver at pointer level -/

/-- Dereference of a pointer to `struct jz4780_rng`: the object at address
`p`, or `none` when `p` is `NULL` or nothing is allocated at `p` any more. -/
def Kernel.deref (k : Kernel) (p : Nat) : Option Jz4780.jz4780_rng :=
  if p = 0 then none else k.objs p

/-- Function `jz4780_rng_kcapi_init` at pointer level: `ctx->rng = jz4780_rng;
return 0;`. -/
def Kernel.jz4780_rng_kcapi_init (k : Kernel) (_ctx : Kernel.jz4780_rng_ctx) :
    Int × Kernel.jz4780_rng_ctx × Kernel :=
  (0, { rng := k.jz4780_rng }, k)

/-- Function `jz4780_rng_probe` at pointer level.  `alloc` is the address
`devm_kzalloc` returned (`0` for `NULL`, otherwise a fresh zeroed object);
the other inputs are as for the resolved `jz4780_rng_probe`.  On the
`IS_ERR` path the `regmap` field holds the error pointer, which is not a
handle and is never read; the model leaves the field zeroed there. -/
def Kernel.jz4780_rng_probe (alloc : Nat) (syscon : Except Errno Nat)
    (register_ret : Int) (k : Kernel) : Int × Kernel :=
  if alloc = 0 then (-ENOMEM, k)
  else
    match syscon with
    | .error e =>
      let rng : Jz4780.jz4780_rng := { dev := 0, regmap := 0 }
      (e.1, { k with objs := fun a => if a = alloc then some rng else k.objs a })
    | .ok regmap =>
      let rng : Jz4780.jz4780_rng := { dev := 0, regmap := regmap }
      let k1 : Kernel := { k with objs := fun a => if a = alloc then some rng else k.objs a }
      let k2 : Kernel := { k1 with jz4780_rng := alloc }
      if register_ret ≠ 0 then (register_ret, { k2 with jz4780_rng := 0 })
      else (register_ret, k2)

/-- Function `jz4780_rng_remove` at pointer level: unregisters the algorithm
(external, not modelled), sets the singleton to `NULL`, returns 0.  The
function releases nothing itself: the device object stays allocated until
the driver core releases the managed memory after the call. -/
def Kernel.jz4780_rng_remove (k : Kernel) : Int × Kernel :=
  (0, { k with jz4780_rng := 0 })

/-- Function `jz4780_rng_generate` at pointer level: `rng = ctx->rng` is read
from the context, every access goes through `rng->regmap`.  The call is the
resolved `jz4780_rng_generate` on the object `ctx->rng` points to in `k`;
the result is `none`, undefined behaviour, when `ctx->rng` is `NULL` or
points to released memory.  The file-scope pointer is not read. -/
def Kernel.jz4780_rng_generate (env : Transport) (bigEndian : Bool) (k : Kernel)
    (ctx : Kernel.jz4780_rng_ctx) (dst dlen : Nat) (s : State) :
    Option (Int × State) :=
  Jz4780.jz4780_rng_generate env bigEndian { rng := k.deref ctx.rng } dst dlen s

/-- The resolved view of the file-scope pointer in `k`. -/
def Kernel.globals (k : Kernel) : Globals :=
  { jz4780_rng := k.deref k.jz4780_rng }

/-! ## Observations on traces -/

/-- Number of `regmap_read` accesses to `offset` in a trace. -/
def count_reads (offset : Nat) (t : List Event) : Nat :=
  (t.filter (fun e => match e with
    | Event.regmap_read _ o => o = offset
    | _ => false)).length

/-- Number of `udelay` calls in a trace. -/
def count_delays (t : List Event) : Nat :=
  (t.filter (fun e => match e with
    | Event.udelay _ => true
    | _ => false)).length

/-- The register accesses of a trace (everything but the delays). -/
def register_accesses (t : List Event) : List Event :=
  t.filter (fun e => match e with
    | Event.udelay _ => false
    | _ => true)

/-- The `len` bytes of memory starting at `dst`. -/
def read_bytes (mem : Nat → Nat) (dst len : Nat) : List Nat :=
  (List.range len).map (fun i => mem (dst + i))

/-- The value `data` receives from the `k`-th reply of the transport:
`jz4780_rng_readl`'s `int` result converted back to `u32`. -/
def data_word (env : Transport) (k : Nat) : Nat :=
  int_to_u32 (if (env.reads k).ret = 0 then u32_to_int (env.reads k).val
              else (env.reads k).ret)

/-- Trace of the word loop for `n` full words on register map `regmap`. -/
def loop_trace (regmap : Nat) : Nat → List Event
  | 0 => []
  | n + 1 => Event.regmap_read regmap REG_RNG_DATA :: Event.udelay 20 ::
      loop_trace regmap n

/-- Trace of one `jz4780_rng_generate` call for `dlen` bytes. -/
def generate_trace (regmap dlen : Nat) : List Event :=
  [Event.regmap_write regmap REG_RNG_CTRL 1] ++ loop_trace regmap (dlen / 4) ++
  (if dlen % 4 > 0 then [Event.regmap_read regmap REG_RNG_DATA] else []) ++
  [Event.regmap_write regmap REG_RNG_CTRL 0]

/-! ## Test fixtures -/

/-- A transport whose every access succeeds; read `k` yields `0x80000001 + k`. -/
def env_ok : Transport :=
  { reads := fun k => { ret := 0, val := 0x80000001 + k }, writes := fun _ => 0 }

/-- A transport whose every access fails with `-EIO`. -/
def env_fail : Transport :=
  { reads := fun _ => { ret := -5, val := 0 }, writes := fun _ => -5 }

/-- A device as `jz4780_rng_probe` builds it, on register map 7. -/
def rng7 : jz4780_rng := { dev := 0, regmap := 7 }

/-- A transport whose first write succeeds and whose every other access
fails with `-EIO`. -/
def env_flaky : Transport :=
  { reads := fun _ => { ret := -5, val := 0 },
    writes := fun k => if k = 0 then 0 else -5 }

/-- Memory holding `0xAA` everywhere. -/
def mem_aa : Nat → Nat := fun _ => 0xAA

/-- A kernel with no device: the singleton is `NULL`, nothing is allocated. -/
def kernel_empty : Kernel := { jz4780_rng := 0, objs := fun _ => none }

/-- The kernel after a successful probe whose device was allocated at
`0x1000`, on register map 7. -/
def kernel_bound : Kernel :=
  (Kernel.jz4780_rng_probe 0x1000 (.ok 7) 0 kernel_empty).2

/-- A context bound while `kernel_bound`'s device is registered. -/
def ctx_bound : Kernel.jz4780_rng_ctx :=
  (Kernel.jz4780_rng_kcapi_init kernel_bound { rng := 0 }).2.1

/-- The kernel after `kernel_bound`'s device was removed and a second device,
allocated at `0x2000` on register map 9, was probed; the first object is
still allocated. -/
def kernel_rebound : Kernel :=
  (Kernel.jz4780_rng_probe 0x2000 (.ok 9) 0 (Kernel.jz4780_rng_remove kernel_bound).2).2

/-- The transport `env` with the reply to read number `n` replaced by `r`. -/
def Transport.set_read (env : Transport) (n : Nat) (r : ReadReply) : Transport :=
  { env with reads := fun k => if k = n then r else env.reads k }

/-- The events a call appended to the trace: `after` without the prefix
that was already in `before`. -/
def call_trace (before after : State) : List Event :=
  after.trace.drop before.trace.length

/-- Bytes in memory after the word loop ran `q` times from `dst`, the first
word coming from read reply number `n`. -/
def filled_mem (env : Transport) (bigEndian : Bool) (mem : Nat → Nat)
    (dst len n : Nat) : Nat → Nat :=
  fun a => if dst ≤ a ∧ a < dst + len then
      (u32_bytes bigEndian (data_word env (n + (a - dst) / 4))).getD ((a - dst) % 4) 0
    else mem a

/-! ## The word loop in closed form -/

theorem readl_fst (env : Transport) (s : State) (rng : jz4780_rng) (offset : Nat) :
    int_to_u32 (jz4780_rng_readl env s rng offset).1 = data_word env s.nreads := by
  unfold jz4780_rng_readl regmap_read data_word
  by_cases h : (env.reads s.nreads).ret = 0 <;> simp [h]

theorem readl_snd (env : Transport) (s : State) (rng : jz4780_rng) (offset : Nat) :
    (jz4780_rng_readl env s rng offset).2 =
      { s with trace := s.trace ++ [Event.regmap_read rng.regmap offset],
               nreads := s.nreads + 1 } := by
  unfold jz4780_rng_readl regmap_read
  by_cases h : (env.reads s.nreads).ret = 0 <;> simp [h]

theorem generate_word_eq (env : Transport) (be : Bool) (rng : jz4780_rng)
    (dst : Nat) (s : State) :
    generate_word env be rng dst s =
      { mem := memcpy s.mem dst (u32_bytes be (data_word env s.nreads)) 4,
        trace := s.trace ++ [Event.regmap_read rng.regmap REG_RNG_DATA, Event.udelay 20],
        nreads := s.nreads + 1,
        nwrites := s.nwrites } := by
  unfold generate_word udelay
  simp only [readl_fst, readl_snd, List.append_assoc, List.singleton_append]

theorem generate_loop_step (env : Transport) (be : Bool) (rng : jz4780_rng)
    (dlen dst : Nat) (s : State) :
    generate_loop env be rng (dlen + 4) dst s =
      generate_loop env be rng dlen (dst + 4) (generate_word env be rng dst s) := by
  rw [generate_loop]

theorem generate_loop_stop (env : Transport) (be : Bool) (rng : jz4780_rng)
    (r dst : Nat) (s : State) (hr : r < 4) :
    generate_loop env be rng r dst s = (r, dst, s) := by
  have h : r = 0 ∨ r = 1 ∨ r = 2 ∨ r = 3 := by omega
  rcases h with h | h | h | h <;> subst h <;> rfl

theorem generate_loop_eq (env : Transport) (be : Bool) (rng : jz4780_rng)
    (q r : Nat) (hr : r < 4) (dst : Nat) (s : State) :
    generate_loop env be rng (4 * q + r) dst s =
      (r, dst + 4 * q,
        { mem := filled_mem env be s.mem dst (4 * q) s.nreads,
          trace := s.trace ++ loop_trace rng.regmap q,
          nreads := s.nreads + q,
          nwrites := s.nwrites }) := by
  induction q generalizing dst s with
  | zero =>
    have hm : filled_mem env be s.mem dst (4 * 0) s.nreads = s.mem := by
      funext a
      have h : ¬ (dst ≤ a ∧ a < dst + 4 * 0) := by omega
      simp only [filled_mem, if_neg h]
    rw [generate_loop_stop env be rng _ dst s (by omega), hm]
    simp [loop_trace]
  | succ q ih =>
    have e : 4 * (q + 1) + r = (4 * q + r) + 4 := by ring
    rw [e, generate_loop_step, ih, generate_word_eq]
    refine Prod.ext rfl (Prod.ext (by simp; ring) ?_)
    simp only [loop_trace, List.append_assoc, List.cons_append, List.nil_append]
    congr 1
    · funext a
      simp only [filled_mem, memcpy]
      by_cases h1 : dst + 4 ≤ a ∧ a < dst + 4 + 4 * q
      · have h2 : dst ≤ a ∧ a < dst + 4 * (q + 1) := by omega
        have h3 : s.nreads + 1 + (a - (dst + 4)) / 4 = s.nreads + (a - dst) / 4 := by omega
        have h4 : (a - (dst + 4)) % 4 = (a - dst) % 4 := by omega
        rw [if_pos h1, if_pos h2, h3, h4]
      · rw [if_neg h1]
        by_cases h2 : dst ≤ a ∧ a < dst + 4
        · have h3 : dst ≤ a ∧ a < dst + 4 * (q + 1) := by omega
          have h4 : (a - dst) / 4 = 0 := by omega
          have h5 : (a - dst) % 4 = a - dst := by omega
          rw [if_pos h2, if_pos h3, h4, h5, Nat.add_zero]
        · have h3 : ¬ (dst ≤ a ∧ a < dst + 4 * (q + 1)) := by omega
          rw [if_neg h2, if_neg h3]
    · omega

theorem generate_tail_eq (env : Transport) (be : Bool) (rng : jz4780_rng)
    (q r : Nat) (hr : r < 4) (dst : Nat) (mem : Nat → Nat) (t : List Event)
    (n w : Nat) :
    generate_tail env be rng r (dst + 4 * q)
        { mem := filled_mem env be mem dst (4 * q) n, trace := t,
          nreads := n + q, nwrites := w } =
      { mem := filled_mem env be mem dst (4 * q + r) n,
        trace := t ++ (if r > 0 then [Event.regmap_read rng.regmap REG_RNG_DATA] else []),
        nreads := n + (4 * q + r + 3) / 4, nwrites := w } := by
  unfold generate_tail
  by_cases h : r > 0
  · simp only [if_pos h, readl_fst, readl_snd]
    congr 1
    · funext a
      simp only [filled_mem, memcpy]
      by_cases h1 : dst + 4 * q ≤ a ∧ a < dst + 4 * q + r
      · have h2 : dst ≤ a ∧ a < dst + (4 * q + r) := by omega
        have h3 : (a - dst) / 4 = q := by omega
        have h4 : (a - dst) % 4 = a - (dst + 4 * q) := by omega
        rw [if_pos h1, if_pos h2, h3, h4]
      · rw [if_neg h1]
        by_cases h2 : dst ≤ a ∧ a < dst + 4 * q
        · have h3 : dst ≤ a ∧ a < dst + (4 * q + r) := by omega
          rw [if_pos h2, if_pos h3]
        · have h3 : ¬ (dst ≤ a ∧ a < dst + (4 * q + r)) := by omega
          rw [if_neg h2, if_neg h3]
    · omega
  · have h0 : r = 0 := by omega
    subst h0
    simp only [if_neg h, List.append_nil, Nat.add_zero]
    congr 1
    omega

/-- Closed form of one `jz4780_rng_generate` call: it returns 0, the `dlen`
bytes at `dst` hold the words read, the trace grows by `generate_trace`. -/
theorem generate_eq (env : Transport) (be : Bool) (rng : jz4780_rng)
    (dst dlen : Nat) (s : State) :
    jz4780_rng_generate env be ⟨some rng⟩ dst dlen s =
      some (0,
        { mem := filled_mem env be s.mem dst dlen s.nreads,
          trace := s.trace ++ generate_trace rng.regmap dlen,
          nreads := s.nreads + (dlen + 3) / 4,
          nwrites := s.nwrites + 2 }) := by
  have hd : 4 * (dlen / 4) + dlen % 4 = dlen := Nat.div_add_mod dlen 4
  have hr : dlen % 4 < 4 := Nat.mod_lt _ (by decide)
  generalize dlen / 4 = q at hd
  generalize dlen % 4 = r at hd hr
  subst hd
  have hq : (4 * q + r) / 4 = q := by omega
  have hm : (4 * q + r) % 4 = r := by omega
  simp only [jz4780_rng_generate, jz4780_rng_writel, regmap_write,
    generate_loop_eq env be rng q r hr, generate_tail_eq env be rng q r hr,
    generate_trace, hq, hm, List.append_assoc]

/-! ## Facts about traces -/

theorem call_trace_append (s : State) (mem : Nat → Nat) (t : List Event) (n w : Nat) :
    call_trace s { mem := mem, trace := s.trace ++ t, nreads := n, nwrites := w } = t := by
  simp [call_trace]

theorem count_reads_loop_trace (regmap n : Nat) :
    count_reads REG_RNG_DATA (loop_trace regmap n) = n := by
  induction n with
  | zero => rfl
  | succ n ih =>
    simp only [count_reads] at ih
    simp [loop_trace, count_reads, List.filter_cons, ih]

theorem count_delays_loop_trace (regmap n : Nat) :
    count_delays (loop_trace regmap n) = n := by
  induction n with
  | zero => rfl
  | succ n ih =>
    simp only [count_delays] at ih
    simp [loop_trace, count_delays, List.filter_cons, ih]

theorem count_reads_generate_trace (regmap dlen : Nat) :
    count_reads REG_RNG_DATA (generate_trace regmap dlen) = (dlen + 3) / 4 := by
  have h := count_reads_loop_trace regmap (dlen / 4)
  simp only [count_reads] at h
  by_cases hr : dlen % 4 > 0
  · simp [generate_trace, count_reads, List.filter_cons, h, hr]
    omega
  · simp [generate_trace, count_reads, List.filter_cons, h, hr]
    omega

theorem count_delays_generate_trace (regmap dlen : Nat) :
    count_delays (generate_trace regmap dlen) = dlen / 4 := by
  have h := count_delays_loop_trace regmap (dlen / 4)
  simp only [count_delays] at h
  by_cases hr : dlen % 4 > 0
  · simp [generate_trace, count_delays, List.filter_cons, h, hr]
  · simp [generate_trace, count_delays, List.filter_cons, h, hr]

theorem register_accesses_generate_trace_last (regmap dlen : Nat) :
    (register_accesses (generate_trace regmap dlen)).getLast? =
      some (Event.regmap_write regmap REG_RNG_CTRL 0) := by
  have e : generate_trace regmap dlen =
      ([Event.regmap_write regmap REG_RNG_CTRL 1] ++ loop_trace regmap (dlen / 4) ++
        (if dlen % 4 > 0 then [Event.regmap_read regmap REG_RNG_DATA] else [])) ++
      [Event.regmap_write regmap REG_RNG_CTRL 0] := rfl
  rw [e, register_accesses, List.filter_append]
  exact List.getLast?_concat _

/-! ## Facts about the integer conversions -/

theorem int_to_u32_u32_to_int (v : Nat) : int_to_u32 (u32_to_int v) = v % 2 ^ 32 := by
  unfold int_to_u32 u32_to_int
  have hlt : v % 2 ^ 32 < 2 ^ 32 := Nat.mod_lt _ (by norm_num)
  by_cases h : v % 2 ^ 32 < 2 ^ 31
  · rw [if_pos h]
    omega
  · rw [if_neg h]
    omega

theorem data_word_ok (env : Transport) (k : Nat) (h : (env.reads k).ret = 0)
    (hv : (env.reads k).val < 2 ^ 32) : data_word env k = (env.reads k).val := by
  unfold data_word
  rw [if_pos h, int_to_u32_u32_to_int, Nat.mod_eq_of_lt hv]

theorem data_word_err (env : Transport) (k : Nat) (h : (env.reads k).ret ≠ 0) :
    data_word env k = int_to_u32 (env.reads k).ret := by
  unfold data_word
  rw [if_neg h]

theorem u32_bytes_length (be : Bool) (w : Nat) : (u32_bytes be w).length = 4 := by
  cases be <;> rfl

/-! ## Facts about memory and byte lists -/

theorem flatten_range_length {α : Type} (f : Nat → List α) (hf : ∀ k, (f k).length = 4) (n : Nat) :
    (((List.range n).map f).flatten).length = 4 * n := by
  induction n with
  | zero => rfl
  | succ n ih =>
    rw [List.range_succ, List.map_append, List.flatten_append, List.length_append, ih]
    simp [hf]
    omega

theorem flatten_range_getD {α : Type} (f : Nat → List α) (hf : ∀ k, (f k).length = 4) (d : α)
    (n i : Nat) (hi : i < 4 * n) :
    (((List.range n).map f).flatten).getD i d = (f (i / 4)).getD (i % 4) d := by
  induction n with
  | zero => omega
  | succ n ih =>
    rw [List.range_succ, List.map_append, List.flatten_append]
    by_cases h : i < 4 * n
    · rw [List.getD_append _ _ _ _ (by rw [flatten_range_length f hf]; exact h), ih h]
    · rw [List.getD_append_right _ _ _ _ (by rw [flatten_range_length f hf]; omega),
        flatten_range_length f hf]
      have h1 : i / 4 = n := by omega
      have h2 : i % 4 = i - 4 * n := by omega
      simp [h1, h2]

theorem filled_mem_inside (env : Transport) (be : Bool) (mem : Nat → Nat)
    (dst len n i : Nat) (hi : i < len) :
    filled_mem env be mem dst len n (dst + i) =
      (u32_bytes be (data_word env (n + i / 4))).getD (i % 4) 0 := by
  have h : dst ≤ dst + i ∧ dst + i < dst + len := by omega
  simp only [filled_mem, if_pos h, Nat.add_sub_cancel_left]

theorem filled_mem_outside (env : Transport) (be : Bool) (mem : Nat → Nat)
    (dst len n a : Nat) (ha : ¬ (dst ≤ a ∧ a < dst + len)) :
    filled_mem env be mem dst len n a = mem a := by
  simp only [filled_mem, if_neg ha]

theorem int_to_u32_lt (i : Int) : int_to_u32 i < 2 ^ 32 := by
  unfold int_to_u32
  omega

theorem data_word_set_read (env : Transport) (n : Nat) (e : Int) (he : e ≠ 0)
    (h : (env.reads n).ret = e) (j : Nat) :
    data_word (env.set_read n { ret := 0, val := int_to_u32 e }) j = data_word env j := by
  by_cases hj : j = n
  · subst hj
    rw [data_word_err env j (by rw [h]; exact he), h]
    simp only [data_word, Transport.set_read, if_true]
    rw [int_to_u32_u32_to_int, Nat.mod_eq_of_lt (int_to_u32_lt e)]
  · simp only [data_word, Transport.set_read, if_neg hj]

/-! ## The pointer level against the resolved level -/

theorem kernel_generate_of_live (env : Transport) (be : Bool) (k : Kernel)
    (ctx : Kernel.jz4780_rng_ctx) (rng : jz4780_rng) (dst dlen : Nat) (s : State)
    (h : k.deref ctx.rng = some rng) :
    Kernel.jz4780_rng_generate env be k ctx dst dlen s =
      jz4780_rng_generate env be { rng := some rng } dst dlen s := by
  unfold Kernel.jz4780_rng_generate
  rw [h]

theorem kernel_generate_of_released (env : Transport) (be : Bool) (k : Kernel)
    (ctx : Kernel.jz4780_rng_ctx) (dst dlen : Nat) (s : State)
    (h : k.deref ctx.rng = none) :
    Kernel.jz4780_rng_generate env be k ctx dst dlen s = none := by
  unfold Kernel.jz4780_rng_generate
  rw [h]
  rfl

theorem kernel_kcapi_init_resolved (k : Kernel) (c : Kernel.jz4780_rng_ctx)
    (c' : jz4780_rng_ctx) :
    (Kernel.jz4780_rng_kcapi_init k c).1 = (jz4780_rng_kcapi_init k.globals c').1 ∧
    k.deref (Kernel.jz4780_rng_kcapi_init k c).2.1.rng =
      (jz4780_rng_kcapi_init k.globals c').2.1.rng ∧
    (Kernel.jz4780_rng_kcapi_init k c).2.2.globals =
      (jz4780_rng_kcapi_init k.globals c').2.2 :=
  ⟨rfl, rfl, rfl⟩

theorem kernel_remove_resolved (k : Kernel) :
    (Kernel.jz4780_rng_remove k).1 = (jz4780_rng_remove k.globals).1 ∧
    (Kernel.jz4780_rng_remove k).2.globals = (jz4780_rng_remove k.globals).2 :=
  ⟨rfl, rfl⟩

theorem kernel_probe_resolved (alloc : Nat) (syscon : Except Errno Nat)
    (register_ret : Int) (k : Kernel) (ha : alloc ≠ 0) (hfresh : k.jz4780_rng ≠ alloc) :
    (Kernel.jz4780_rng_probe alloc syscon register_ret k).1 =
      (jz4780_rng_probe true syscon register_ret k.globals).1 ∧
    (Kernel.jz4780_rng_probe alloc syscon register_ret k).2.globals =
      (jz4780_rng_probe true syscon register_ret k.globals).2 := by
  cases syscon with
  | error e =>
    simp [Kernel.jz4780_rng_probe, jz4780_rng_probe, ha, Kernel.globals, Kernel.deref, hfresh]
  | ok regmap =>
    by_cases hr : register_ret = 0
    · simp [Kernel.jz4780_rng_probe, jz4780_rng_probe, ha, Kernel.globals, Kernel.deref, hr]
    · simp [Kernel.jz4780_rng_probe, jz4780_rng_probe, ha, Kernel.globals, Kernel.deref, hr]

/-! ## The claims -/

/-- C1: when the `DATA` reads of a call succeed and return the 32-bit words
`w 0, w 1, ...`, the call returns 0 and the `L` output bytes are the first
`L` bytes of the concatenation of the native-byte-order representations of
`w 0 .. w (ceil(L/4) - 1)`; each word, whatever its top bit, is the value
`data` receives after the passage through the `int` result of
`jz4780_rng_readl`. -/
theorem generate_output_is_word_stream (env : Transport) (be : Bool)
    (rng : jz4780_rng) (dst L : Nat) (s : State) (w : Nat → Nat)
    (hok : ∀ k, k < (L + 3) / 4 →
      (env.reads (s.nreads + k)).ret = 0 ∧ (env.reads (s.nreads + k)).val = w k ∧
        w k < 2 ^ 32) :
    (∃ st, jz4780_rng_generate env be ⟨some rng⟩ dst L s = some (0, st) ∧
      read_bytes st.mem dst L =
        (((List.range ((L + 3) / 4)).map (fun k => u32_bytes be (w k))).flatten).take L) ∧
    (∀ k, k < (L + 3) / 4 → ∀ t : State, t.nreads = s.nreads + k →
      int_to_u32 (jz4780_rng_readl env t rng REG_RNG_DATA).1 = w k) := by
  have hw : ∀ k, k < (L + 3) / 4 → data_word env (s.nreads + k) = w k := by
    intro k hk
    obtain ⟨h1, h2, h3⟩ := hok k hk
    rw [data_word_ok env _ h1 (by rw [h2]; exact h3), h2]
  have hlen : (((List.range ((L + 3) / 4)).map (fun k => u32_bytes be (w k))).flatten).length
      = 4 * ((L + 3) / 4) :=
    flatten_range_length _ (fun k => u32_bytes_length be (w k)) _
  refine ⟨⟨_, generate_eq env be rng dst L s, ?_⟩, ?_⟩
  · apply List.ext_getElem
    · simp only [read_bytes, List.length_map, List.length_range, List.length_take, hlen]
      omega
    · intro i h1 _
      have hi : i < L := by simpa [read_bytes] using h1
      have hi4 : i < 4 * ((L + 3) / 4) := by omega
      simp only [read_bytes, List.getElem_map, List.getElem_range, List.getElem_take]
      rw [filled_mem_inside env be s.mem dst L s.nreads i hi, hw (i / 4) (by omega),
        ← flatten_range_getD (fun k => u32_bytes be (w k))
          (fun k => u32_bytes_length be (w k)) 0 _ i hi4,
        List.getD_eq_getElem _ 0 (by rw [hlen]; exact hi4)]
  · intro k hk t ht
    rw [readl_fst, ht, hw k hk]

/-- Witness of C1 for a 6-byte request on a transport whose words have the
top bit set. -/
theorem generate_output_is_word_stream_witness :
    (∃ st, jz4780_rng_generate env_ok false ⟨some rng7⟩ 100 6 (State.init mem_aa) =
        some (0, st) ∧
      read_bytes st.mem 100 6 =
        (((List.range ((6 + 3) / 4)).map
          (fun k => u32_bytes false (0x80000001 + k))).flatten).take 6) ∧
    (∀ k, k < (6 + 3) / 4 → ∀ t : State, t.nreads = (State.init mem_aa).nreads + k →
      int_to_u32 (jz4780_rng_readl env_ok t rng7 REG_RNG_DATA).1 = 0x80000001 + k) :=
  generate_output_is_word_stream env_ok false rng7 100 6 (State.init mem_aa)
    (fun k => 0x80000001 + k)
    (by
      intro k hk
      have h : k < 2 := by omega
      refine ⟨rfl, by simp [env_ok, State.init], ?_⟩
      show 0x80000001 + k < 2 ^ 32
      omega)

/-- C2 as stated fails: on a transport whose enable-write fails with `-5`, a
4-byte request still reads `DATA` once, overwrites the buffer and returns 0. -/
theorem enable_write_failure_is_ignored :
    (jz4780_rng_writel env_fail (State.init mem_aa) rng7 1 REG_RNG_CTRL).1 = -5 ∧
    ∃ st, jz4780_rng_generate env_fail false ⟨some rng7⟩ 100 4 (State.init mem_aa) =
        some (0, st) ∧
      count_reads REG_RNG_DATA st.trace = 1 ∧
      read_bytes st.mem 100 4 = [251, 255, 255, 255] ∧
      read_bytes mem_aa 100 4 = [170, 170, 170, 170] :=
  ⟨by decide, _, rfl, by decide, by decide, by decide⟩

/-- C2, amended: when the enable-write fails, `jz4780_rng_generate` discards
the error; it returns 0 after the full access sequence (the enable-write,
`ceil(L/4)` reads of `DATA`, the disable-write) and the `L` output bytes hold
the words received. -/
theorem generate_discards_enable_failure (env : Transport) (be : Bool)
    (rng : jz4780_rng) (dst L : Nat) (s : State)
    (hfail : (jz4780_rng_writel env s rng 1 REG_RNG_CTRL).1 ≠ 0) :
    ∃ ret st, jz4780_rng_generate env be ⟨some rng⟩ dst L s = some (ret, st) ∧
      ret = 0 ∧ ret ≠ (jz4780_rng_writel env s rng 1 REG_RNG_CTRL).1 ∧
      call_trace s st = generate_trace rng.regmap L ∧
      count_reads REG_RNG_DATA (call_trace s st) = (L + 3) / 4 ∧
      (∀ i, i < L → st.mem (dst + i) =
        (u32_bytes be (data_word env (s.nreads + i / 4))).getD (i % 4) 0) ∧
      (∀ a, ¬ (dst ≤ a ∧ a < dst + L) → st.mem a = s.mem a) := by
  refine ⟨0, _, generate_eq env be rng dst L s, rfl, ?_, ?_, ?_, ?_, ?_⟩
  · exact fun h => hfail h.symm
  · exact call_trace_append _ _ _ _ _
  · rw [call_trace_append]
    exact count_reads_generate_trace _ _
  · intro i hi
    exact filled_mem_inside env be s.mem dst L s.nreads i hi
  · intro a ha
    exact filled_mem_outside env be s.mem dst L s.nreads a ha

/-- Witness of the amended C2: a 6-byte request on a transport whose every
access fails. -/
theorem generate_discards_enable_failure_witness :
    (jz4780_rng_writel env_fail (State.init mem_aa) rng7 1 REG_RNG_CTRL).1 ≠ 0 ∧
    ∃ ret st, jz4780_rng_generate env_fail true ⟨some rng7⟩ 100 6 (State.init mem_aa) =
        some (ret, st) ∧
      ret = 0 ∧ ret ≠ (jz4780_rng_writel env_fail (State.init mem_aa) rng7 1 REG_RNG_CTRL).1 ∧
      call_trace (State.init mem_aa) st = generate_trace rng7.regmap 6 ∧
      count_reads REG_RNG_DATA (call_trace (State.init mem_aa) st) = (6 + 3) / 4 ∧
      (∀ i, i < 6 → st.mem (100 + i) =
        (u32_bytes true (data_word env_fail ((State.init mem_aa).nreads + i / 4))).getD
          (i % 4) 0) ∧
      (∀ a, ¬ (100 ≤ a ∧ a < 100 + 6) → st.mem a = (State.init mem_aa).mem a) :=
  ⟨by decide,
    generate_discards_enable_failure env_fail true rng7 100 6 (State.init mem_aa)
      (by decide)⟩

/-- C3 as stated fails: a 4-byte request makes one `DATA` read and that
final read is followed by a `udelay(20)`, so there is 1 delay, not
`4/4 - 1 = 0`. -/
theorem delay_follows_final_read :
    ∃ st, jz4780_rng_generate env_ok false ⟨some rng7⟩ 100 4 (State.init mem_aa) =
        some (0, st) ∧
      st.trace = [Event.regmap_write 7 REG_RNG_CTRL 1, Event.regmap_read 7 REG_RNG_DATA,
        Event.udelay 20, Event.regmap_write 7 REG_RNG_CTRL 0] ∧
      count_delays st.trace = 1 ∧
      count_delays st.trace ≠ 4 / 4 - 1 :=
  ⟨_, rfl, by decide, by decide, by decide⟩

/-- C3, amended: for `L` a multiple of 4 the call writes 1 to `CONTROL`
once, then reads `DATA` exactly `L/4` times, each read, the final one
included, followed by a 20 microsecond delay (`L/4` delays), then writes 0
to `CONTROL` once. -/
theorem generate_trace_of_whole_words (env : Transport) (be : Bool)
    (rng : jz4780_rng) (dst L : Nat) (s : State) (h4 : L % 4 = 0) :
    ∃ st, jz4780_rng_generate env be ⟨some rng⟩ dst L s = some (0, st) ∧
      call_trace s st =
        [Event.regmap_write rng.regmap REG_RNG_CTRL 1] ++ loop_trace rng.regmap (L / 4) ++
          [Event.regmap_write rng.regmap REG_RNG_CTRL 0] ∧
      count_reads REG_RNG_DATA (call_trace s st) = L / 4 ∧
      count_delays (call_trace s st) = L / 4 := by
  refine ⟨_, generate_eq env be rng dst L s, ?_, ?_, ?_⟩
  · rw [call_trace_append]
    simp [generate_trace, h4]
  · rw [call_trace_append, count_reads_generate_trace]
    omega
  · rw [call_trace_append]
    exact count_delays_generate_trace _ _

/-- Witness of the amended C3 for an 8-byte request. -/
theorem generate_trace_of_whole_words_witness :
    8 % 4 = 0 ∧
    ∃ st, jz4780_rng_generate env_ok false ⟨some rng7⟩ 100 8 (State.init mem_aa) =
        some (0, st) ∧
      call_trace (State.init mem_aa) st =
        [Event.regmap_write rng7.regmap REG_RNG_CTRL 1] ++ loop_trace rng7.regmap (8 / 4) ++
          [Event.regmap_write rng7.regmap REG_RNG_CTRL 0] ∧
      count_reads REG_RNG_DATA (call_trace (State.init mem_aa) st) = 8 / 4 ∧
      count_delays (call_trace (State.init mem_aa) st) = 8 / 4 :=
  ⟨by decide,
    generate_trace_of_whole_words env_ok false rng7 100 8 (State.init mem_aa) (by decide)⟩

/-- C4: for `L` not a multiple of 4 the call makes exactly `floor(L/4) + 1`
reads of `DATA`; the bytes at positions `4*floor(L/4) .. L-1` are the first
`L mod 4` bytes of the native representation of the final word read, and no
byte outside `dst .. dst+L-1` changes. -/
theorem generate_partial_word (env : Transport) (be : Bool)
    (rng : jz4780_rng) (dst L : Nat) (s : State) (h4 : L % 4 ≠ 0) :
    ∃ st, jz4780_rng_generate env be ⟨some rng⟩ dst L s = some (0, st) ∧
      count_reads REG_RNG_DATA (call_trace s st) = L / 4 + 1 ∧
      read_bytes st.mem (dst + 4 * (L / 4)) (L % 4) =
        (u32_bytes be (data_word env (s.nreads + L / 4))).take (L % 4) ∧
      (∀ a, ¬ (dst ≤ a ∧ a < dst + L) → st.mem a = s.mem a) := by
  refine ⟨_, generate_eq env be rng dst L s, ?_, ?_, ?_⟩
  · rw [call_trace_append, count_reads_generate_trace]
    omega
  · have hr : L % 4 < 4 := Nat.mod_lt _ (by decide)
    apply List.ext_getElem
    · simp only [read_bytes, List.length_map, List.length_range, List.length_take,
        u32_bytes_length]
      omega
    · intro i h1 _
      have hi : i < L % 4 := by simpa [read_bytes] using h1
      have e1 : (4 * (L / 4) + i) / 4 = L / 4 := by omega
      have e2 : (4 * (L / 4) + i) % 4 = i := by omega
      simp only [read_bytes, List.getElem_map, List.getElem_range, List.getElem_take]
      rw [Nat.add_assoc,
        filled_mem_inside env be s.mem dst L s.nreads (4 * (L / 4) + i) (by omega), e1, e2,
        List.getD_eq_getElem _ 0 (by rw [u32_bytes_length]; omega)]
  · intro a ha
    exact filled_mem_outside env be s.mem dst L s.nreads a ha

/-- Witness of C4 for a 7-byte request. -/
theorem generate_partial_word_witness :
    7 % 4 ≠ 0 ∧
    ∃ st, jz4780_rng_generate env_ok true ⟨some rng7⟩ 100 7 (State.init mem_aa) =
        some (0, st) ∧
      count_reads REG_RNG_DATA (call_trace (State.init mem_aa) st) = 7 / 4 + 1 ∧
      read_bytes st.mem (100 + 4 * (7 / 4)) (7 % 4) =
        (u32_bytes true (data_word env_ok ((State.init mem_aa).nreads + 7 / 4))).take (7 % 4) ∧
      (∀ a, ¬ (100 ≤ a ∧ a < 100 + 7) → st.mem a = (State.init mem_aa).mem a) :=
  ⟨by decide,
    generate_partial_word env_ok true rng7 100 7 (State.init mem_aa) (by decide)⟩

/-- C5: for `L = 0` the accesses of the call are exactly the write of 1 to
`CONTROL` followed by the write of 0 to `CONTROL`: no `DATA` read, no delay,
and memory is unchanged. -/
theorem generate_zero_length (env : Transport) (be : Bool) (rng : jz4780_rng)
    (dst : Nat) (s : State) :
    ∃ st, jz4780_rng_generate env be ⟨some rng⟩ dst 0 s = some (0, st) ∧
      call_trace s st = [Event.regmap_write rng.regmap REG_RNG_CTRL 1,
        Event.regmap_write rng.regmap REG_RNG_CTRL 0] ∧
      count_reads REG_RNG_DATA (call_trace s st) = 0 ∧
      count_delays (call_trace s st) = 0 ∧
      st.mem = s.mem := by
  refine ⟨_, generate_eq env be rng dst 0 s, ?_, ?_, ?_, ?_⟩
  · rw [call_trace_append]
    rfl
  · rw [call_trace_append]
    rfl
  · rw [call_trace_append]
    rfl
  · funext a
    exact filled_mem_outside env be s.mem dst 0 s.nreads a (by omega)

/-- C6: when the enable-write succeeds, whatever the `DATA` reads and the
disable-write return, the call makes all `ceil(L/4)` reads of `DATA`, its
last register access is the write of 0 to `CONTROL`, and it returns 0. -/
theorem generate_never_aborts (env : Transport) (be : Bool) (rng : jz4780_rng)
    (dst L : Nat) (s : State)
    (_henable : (jz4780_rng_writel env s rng 1 REG_RNG_CTRL).1 = 0) :
    ∃ st, jz4780_rng_generate env be ⟨some rng⟩ dst L s = some (0, st) ∧
      count_reads REG_RNG_DATA (call_trace s st) = (L + 3) / 4 ∧
      (register_accesses (call_trace s st)).getLast? =
        some (Event.regmap_write rng.regmap REG_RNG_CTRL 0) := by
  refine ⟨_, generate_eq env be rng dst L s, ?_, ?_⟩
  · rw [call_trace_append]
    exact count_reads_generate_trace _ _
  · rw [call_trace_append]
    exact register_accesses_generate_trace_last _ _

/-- Witness of C6: the enable-write succeeds, every read and the
disable-write fail. -/
theorem generate_never_aborts_witness :
    (jz4780_rng_writel env_flaky (State.init mem_aa) rng7 1 REG_RNG_CTRL).1 = 0 ∧
    (jz4780_rng_readl env_flaky (State.init mem_aa) rng7 REG_RNG_DATA).1 = -5 ∧
    ∃ st, jz4780_rng_generate env_flaky false ⟨some rng7⟩ 100 9 (State.init mem_aa) =
        some (0, st) ∧
      count_reads REG_RNG_DATA (call_trace (State.init mem_aa) st) = (9 + 3) / 4 ∧
      (register_accesses (call_trace (State.init mem_aa) st)).getLast? =
        some (Event.regmap_write rng7.regmap REG_RNG_CTRL 0) :=
  ⟨by decide, by decide,
    generate_never_aborts env_flaky false rng7 100 9 (State.init mem_aa) (by decide)⟩

/-- C9: a request of 10 bytes makes 3 reads of `DATA` (two whole words and
one of which 2 bytes are copied) and exactly 2 delays, one after each
whole-word read and none after the partial read. -/
theorem generate_ten_bytes (env : Transport) (be : Bool) (rng : jz4780_rng)
    (dst : Nat) (s : State) :
    ∃ st, jz4780_rng_generate env be ⟨some rng⟩ dst 10 s = some (0, st) ∧
      call_trace s st =
        [Event.regmap_write rng.regmap REG_RNG_CTRL 1,
         Event.regmap_read rng.regmap REG_RNG_DATA, Event.udelay 20,
         Event.regmap_read rng.regmap REG_RNG_DATA, Event.udelay 20,
         Event.regmap_read rng.regmap REG_RNG_DATA,
         Event.regmap_write rng.regmap REG_RNG_CTRL 0] ∧
      count_reads REG_RNG_DATA (call_trace s st) = 3 ∧
      count_delays (call_trace s st) = 2 ∧
      read_bytes st.mem (dst + 8) 2 =
        (u32_bytes be (data_word env (s.nreads + 2))).take 2 ∧
      st.mem (dst + 10) = s.mem (dst + 10) ∧ st.mem (dst + 11) = s.mem (dst + 11) := by
  refine ⟨_, generate_eq env be rng dst 10 s, ?_, ?_, ?_, ?_, ?_, ?_⟩
  · rw [call_trace_append]
    rfl
  · rw [call_trace_append]
    rfl
  · rw [call_trace_append]
    rfl
  · have h8 := filled_mem_inside env be s.mem dst 10 s.nreads 8 (by decide)
    have h9 := filled_mem_inside env be s.mem dst 10 s.nreads 9 (by decide)
    have hl := u32_bytes_length be (data_word env (s.nreads + 2))
    simp only [read_bytes, List.range_succ, List.range_zero, List.nil_append, List.map_append,
      List.map_cons, List.map_nil, List.singleton_append, Nat.add_zero, Nat.add_assoc]
    norm_num at h8 h9 ⊢
    rw [h8, h9]
    cases be <;> rfl
  · exact filled_mem_outside env be s.mem dst 10 s.nreads _ (by omega)
  · exact filled_mem_outside env be s.mem dst 10 s.nreads _ (by omega)

/-- C10: when the `k`-th `DATA` read of a call fails with the nonzero code
`e`, the output bytes `4k .. min(4k+4, L) - 1` are the leading bytes of the
native representation of `e mod 2^32`; the call gives the same return value
and final state as on the transport where that read succeeds with the data
word `e mod 2^32`. -/
theorem failed_read_is_copied_as_data (env : Transport) (be : Bool)
    (rng : jz4780_rng) (dst L : Nat) (s : State) (k : Nat) (e : Int)
    (hk : k < (L + 3) / 4) (he : e ≠ 0)
    (hfail : (env.reads (s.nreads + k)).ret = e) :
    (∃ st, jz4780_rng_generate env be ⟨some rng⟩ dst L s = some (0, st) ∧
      (jz4780_rng_readl env { s with nreads := s.nreads + k } rng REG_RNG_DATA).1 = e ∧
      4 * k < min (4 * k + 4) L ∧
      ∀ i, 4 * k ≤ i → i < min (4 * k + 4) L →
        st.mem (dst + i) = (u32_bytes be (int_to_u32 e)).getD (i - 4 * k) 0) ∧
    jz4780_rng_generate env be ⟨some rng⟩ dst L s =
      jz4780_rng_generate (env.set_read (s.nreads + k) { ret := 0, val := int_to_u32 e })
        be ⟨some rng⟩ dst L s := by
  have hne : (env.reads (s.nreads + k)).ret ≠ 0 := by rw [hfail]; exact he
  refine ⟨⟨_, generate_eq env be rng dst L s, ?_, ?_, ?_⟩, ?_⟩
  · simp only [jz4780_rng_readl, regmap_read, hfail, if_neg he]
  · rw [lt_min_iff]
    omega
  · intro i h1 h2
    have hi : i < L := lt_of_lt_of_le h2 (Nat.min_le_right _ _)
    have h3 : i < 4 * k + 4 := lt_of_lt_of_le h2 (Nat.min_le_left _ _)
    have e1 : i / 4 = k := by omega
    have e2 : i % 4 = i - 4 * k := by omega
    show filled_mem env be s.mem dst L s.nreads (dst + i) = _
    rw [filled_mem_inside env be s.mem dst L s.nreads i hi, e1, e2,
      data_word_err env _ hne, hfail]
  · rw [generate_eq, generate_eq]
    have hm : filled_mem (env.set_read (s.nreads + k) { ret := 0, val := int_to_u32 e })
        be s.mem dst L s.nreads = filled_mem env be s.mem dst L s.nreads := by
      funext a
      simp only [filled_mem, data_word_set_read env (s.nreads + k) e he hfail]
    rw [hm]

/-- Witness of C10: the second read of a 6-byte request fails with `-5`. -/
theorem failed_read_is_copied_as_data_witness :
    (∃ st, jz4780_rng_generate (env_ok.set_read 1 { ret := -5, val := 0 }) false
        ⟨some rng7⟩ 100 6 (State.init mem_aa) = some (0, st) ∧
      (jz4780_rng_readl (env_ok.set_read 1 { ret := -5, val := 0 })
        { State.init mem_aa with nreads := (State.init mem_aa).nreads + 1 } rng7
        REG_RNG_DATA).1 = -5 ∧
      4 * 1 < min (4 * 1 + 4) 6 ∧
      ∀ i, 4 * 1 ≤ i → i < min (4 * 1 + 4) 6 →
        st.mem (100 + i) = (u32_bytes false (int_to_u32 (-5))).getD (i - 4 * 1) 0) ∧
    jz4780_rng_generate (env_ok.set_read 1 { ret := -5, val := 0 }) false
        ⟨some rng7⟩ 100 6 (State.init mem_aa) =
      jz4780_rng_generate
        ((env_ok.set_read 1 { ret := -5, val := 0 }).set_read
          ((State.init mem_aa).nreads + 1) { ret := 0, val := int_to_u32 (-5) })
        false ⟨some rng7⟩ 100 6 (State.init mem_aa) :=
  failed_read_is_copied_as_data (env_ok.set_read 1 { ret := -5, val := 0 }) false rng7
    100 6 (State.init mem_aa) 1 (-5) (by decide) (by decide) (by decide)

/-- C7 as stated fails: binding against an empty singleton, whether never
registered or cleared by `jz4780_rng_remove`, returns 0 and leaves a `NULL`
device reference in the context. -/
theorem bind_on_empty_singleton_succeeds :
    jz4780_rng_kcapi_init { jz4780_rng := none } { rng := none } =
      (0, { rng := none }, { jz4780_rng := none }) ∧
    jz4780_rng_kcapi_init (jz4780_rng_remove { jz4780_rng := some rng7 }).2 { rng := none } =
      (0, { rng := none }, { jz4780_rng := none }) :=
  ⟨rfl, rfl⟩

/-- C7, amended: binding observes the singleton at call time and always
returns 0.  After a successful `jz4780_rng_probe` the context refers to
exactly the device just registered; on an empty singleton (never registered,
or cleared by `jz4780_rng_remove`) the context receives `NULL`.  Binding
never changes the singleton. -/
theorem bind_copies_singleton (g : Globals) (ctx : jz4780_rng_ctx) (regmap : Nat) :
    (jz4780_rng_kcapi_init g ctx).1 = 0 ∧
    (jz4780_rng_kcapi_init g ctx).2.1.rng = g.jz4780_rng ∧
    (jz4780_rng_kcapi_init g ctx).2.2 = g ∧
    (jz4780_rng_probe true (.ok regmap) 0 g).1 = 0 ∧
    (jz4780_rng_probe true (.ok regmap) 0 g).2.jz4780_rng =
      some { dev := 0, regmap := regmap } ∧
    (jz4780_rng_kcapi_init (jz4780_rng_probe true (.ok regmap) 0 g).2 ctx).2.1.rng =
      some { dev := 0, regmap := regmap } ∧
    (jz4780_rng_remove g).2.jz4780_rng = none ∧
    jz4780_rng_kcapi_init (jz4780_rng_remove g).2 ctx =
      (0, { rng := none }, (jz4780_rng_remove g).2) ∧
    (g.jz4780_rng = none → jz4780_rng_kcapi_init g ctx = (0, { rng := none }, g)) := by
  refine ⟨rfl, rfl, rfl, rfl, rfl, rfl, rfl, rfl, ?_⟩
  intro h
  simp [jz4780_rng_kcapi_init, h]

/-- Witness of the amended C7 on an empty singleton. -/
theorem bind_copies_singleton_witness :
    (jz4780_rng_kcapi_init { jz4780_rng := none } { rng := some rng7 }).1 = 0 ∧
    (jz4780_rng_kcapi_init { jz4780_rng := none } { rng := some rng7 }).2.1.rng = none ∧
    (jz4780_rng_kcapi_init
      (jz4780_rng_probe true (.ok 7) 0 { jz4780_rng := none }).2 { rng := none }).2.1.rng =
      some rng7 :=
  have h := bind_copies_singleton { jz4780_rng := none } { rng := some rng7 } 7
  have h2 := bind_copies_singleton { jz4780_rng := none } { rng := none } 7
  ⟨h.1, h.2.1, h2.2.2.2.2.2.1⟩

/-- C8 as stated fails: a context is bound while a device is registered at
address `0x1000`, then `jz4780_rng_remove` clears the singleton.  The
function releases nothing, so the object is still allocated when it returns:
a 4-byte request through the context then returns 0, not an error, after
accessing the registers of the removed device.  In the state where the
object has been released the call dereferences released memory and has no
defined result.  In neither state does it return an error code and leave
the registers alone. -/
theorem stale_context_still_generates :
    kernel_bound.deref kernel_bound.jz4780_rng = some rng7 ∧
    ctx_bound.rng = 0x1000 ∧
    (Kernel.jz4780_rng_remove kernel_bound).2.jz4780_rng = 0 ∧
    (∃ st, Kernel.jz4780_rng_generate env_ok false (Kernel.jz4780_rng_remove kernel_bound).2
        ctx_bound 100 4 (State.init mem_aa) = some (0, st) ∧
      st.trace = [Event.regmap_write 7 REG_RNG_CTRL 1, Event.regmap_read 7 REG_RNG_DATA,
        Event.udelay 20, Event.regmap_write 7 REG_RNG_CTRL 0]) ∧
    Kernel.jz4780_rng_generate env_ok false kernel_empty ctx_bound 100 4
      (State.init mem_aa) = none :=
  ⟨by decide, by decide, rfl, ⟨_, rfl, by decide⟩, rfl⟩

/-- C8, amended: `jz4780_rng_generate` uses the pointer the context received
at bind time and never re-resolves the singleton.  For a context bound in
`k` while a device `rng` is registered: `jz4780_rng_remove` sets the
singleton to `NULL` and leaves the allocations as they are, and the call
through the context after it returns 0 after the full access sequence on
the register map of `rng`; the same holds in every later state `k'` in
which the object is still allocated, whatever the singleton holds there.
Nothing is stated for a state in which the object has been released. -/
theorem generate_uses_cached_device (env : Transport) (be : Bool) (k k' : Kernel)
    (ctx0 : Kernel.jz4780_rng_ctx) (rng : jz4780_rng) (dst L : Nat) (s : State)
    (hbound : k.deref k.jz4780_rng = some rng)
    (hlive : k'.deref k.jz4780_rng = some rng) :
    (Kernel.jz4780_rng_kcapi_init k ctx0).2.1.rng = k.jz4780_rng ∧
    (Kernel.jz4780_rng_remove k).2.jz4780_rng = 0 ∧
    (Kernel.jz4780_rng_remove k).2.objs = k.objs ∧
    (∃ st, Kernel.jz4780_rng_generate env be (Kernel.jz4780_rng_remove k).2
        (Kernel.jz4780_rng_kcapi_init k ctx0).2.1 dst L s = some (0, st) ∧
      call_trace s st = generate_trace rng.regmap L) ∧
    (∃ st, Kernel.jz4780_rng_generate env be k'
        (Kernel.jz4780_rng_kcapi_init k ctx0).2.1 dst L s = some (0, st) ∧
      call_trace s st = generate_trace rng.regmap L) := by
  have hne : k.jz4780_rng ≠ 0 := by
    intro h0
    simp [Kernel.deref, h0] at hbound
  have hrem : (Kernel.jz4780_rng_remove k).2.deref
      (Kernel.jz4780_rng_kcapi_init k ctx0).2.1.rng = some rng := by
    simpa [Kernel.deref, Kernel.jz4780_rng_remove, Kernel.jz4780_rng_kcapi_init, hne]
      using hbound
  have hlater : k'.deref (Kernel.jz4780_rng_kcapi_init k ctx0).2.1.rng = some rng := hlive
  have hcall : ∀ kk : Kernel,
      kk.deref (Kernel.jz4780_rng_kcapi_init k ctx0).2.1.rng = some rng →
      ∃ st, Kernel.jz4780_rng_generate env be kk
          (Kernel.jz4780_rng_kcapi_init k ctx0).2.1 dst L s = some (0, st) ∧
        call_trace s st = generate_trace rng.regmap L := fun kk h =>
    ⟨_, (kernel_generate_of_live env be kk _ rng dst L s h).trans
        (generate_eq env be rng dst L s), call_trace_append _ _ _ _ _⟩
  exact ⟨rfl, rfl, rfl, hcall _ hrem, hcall _ hlater⟩

/-- Witness of the amended C8: the context is bound to the device at
`0x1000` on register map 7; in the later state that device was removed and
a device on register map 9 is registered, and the call still goes to
register map 7. -/
theorem generate_uses_cached_device_witness :
    kernel_bound.deref kernel_bound.jz4780_rng = some rng7 ∧
    kernel_rebound.deref kernel_bound.jz4780_rng = some rng7 ∧
    kernel_rebound.deref kernel_rebound.jz4780_rng = some { dev := 0, regmap := 9 } ∧
    (Kernel.jz4780_rng_kcapi_init kernel_bound { rng := 0 }).2.1.rng =
      kernel_bound.jz4780_rng ∧
    (Kernel.jz4780_rng_remove kernel_bound).2.jz4780_rng = 0 ∧
    (Kernel.jz4780_rng_remove kernel_bound).2.objs = kernel_bound.objs ∧
    (∃ st, Kernel.jz4780_rng_generate env_ok false (Kernel.jz4780_rng_remove kernel_bound).2
        (Kernel.jz4780_rng_kcapi_init kernel_bound { rng := 0 }).2.1 100 6
        (State.init mem_aa) = some (0, st) ∧
      call_trace (State.init mem_aa) st = generate_trace rng7.regmap 6) ∧
    (∃ st, Kernel.jz4780_rng_generate env_ok false kernel_rebound
        (Kernel.jz4780_rng_kcapi_init kernel_bound { rng := 0 }).2.1 100 6
        (State.init mem_aa) = some (0, st) ∧
      call_trace (State.init mem_aa) st = generate_trace rng7.regmap 6) :=
  ⟨by decide, by decide, by decide,
    generate_uses_cached_device env_ok false kernel_bound kernel_rebound { rng := 0 } rng7
      100 6 (State.init mem_aa) (by decide) (by decide)⟩

end Jz4780
